import Mathlib

/-!
Verification of `build/rocm/tools/build_wheels.py`.

The Python script orchestrates a ROCm wheel build.  Its core is
`_run_scan_for_output`, which relays the captured stream of a child process,
accumulates a bounded tail buffer (`deque(maxlen=20000)` of characters),
and after a clean exit extracts regex matches from the buffered text.

This file shallowly embeds the script: the buffer loop becomes a fold over
the list of decoded chunks, the runner becomes a pure function returning
`Except RunError (List String)`, the two concrete regular expressions are
embedded as a small executable pattern language with Python `re` greedy
semantics, and the filesystem/environment effects become explicit maps.
-/

/-- The `maxlen` of the capture deque in `_run_scan_for_output` (line 98). -/
def BUF_CAP : Nat := 20000

/-- One step of the read loop: `buf.extend(t)` on a `deque(maxlen=BUF_CAP)`.
Appending the characters of the decoded chunk and dropping the oldest ones once
the capacity is exceeded leaves exactly the last `BUF_CAP` characters of
`buf ++ t`. -/
def dequeExtend (buf : List Char) (t : List Char) : List Char :=
  (buf ++ t).drop ((buf ++ t).length - BUF_CAP)

/-- The capture buffer after the read loop of `_run_scan_for_output` has
consumed the given sequence of decoded chunks (`dat.decode("utf8")` per
`fd.read(512)` that returned data). -/
def feedChunks (chunks : List String) : List Char :=
  chunks.foldl (fun buf t => dequeExtend buf t.data) []

/-- The full decoded stream: concatenation of all chunks. -/
def fullStream (chunks : List String) : List Char :=
  chunks.foldl (fun s t => s ++ t.data) []

/-- The decoded buffer text, `text = "".join(buf)` (line 134). -/
def capturedText (chunks : List String) : String :=
  String.mk (feedChunks chunks)

/-- The two failure modes of `_run_scan_for_output`: the nonzero-exit
`Exception` at lines 129-132 (carrying the return code) and the no-match
`Exception` at lines 138-140 (after `LOG.error` logs the captured text,
carried here). -/
inductive RunError where
  | childProcessFailed (rc : Int)
  | noMatchFound (loggedText : String)
  deriving DecidableEq, Repr

/-- The function `_run_scan_for_output` (lines 96-147) after the read
loop, as a pure function.  `fa` stands for `pattern.findall` applied by the Python `re`
module to the `pattern` argument; `chunks` are the decoded chunks the loop
read; `rc` is `p.returncode`.  After the loop: nonzero exit raises; then
`text = "".join(buf)`, `matches = pattern.findall(text)`; empty matches
raises; otherwise the matches are appended in order to `wheels` and
returned. -/
def runScanForOutput (fa : String → List String) (chunks : List String)
    (rc : Int) : Except RunError (List String) :=
  if rc ≠ 0 then
    .error (.childProcessFailed rc)
  else if (fa (capturedText chunks)).isEmpty then
    .error (.noMatchFound (capturedText chunks))
  else
    .ok (fa (capturedText chunks))

theorem dequeExtend_eq (buf t : List Char) :
    dequeExtend buf t = (buf ++ t).drop ((buf ++ t).length - BUF_CAP) := rfl

theorem list_drop_sub_length_le (l : List Char) (n : Nat) :
    (l.drop (l.length - n)).length ≤ n := by
  rw [List.length_drop]
  omega

theorem list_drop_sub_length_eq (l : List Char) (n : Nat) :
    (l.drop (l.length - n)).length = min n l.length := by
  rw [List.length_drop]
  omega

/-- Prepending never changes the last `n` elements when the right part
already has at least `n` of them. -/
theorem lastN_append_left (pre u : List Char) (n : Nat) (h : n ≤ u.length) :
    (pre ++ u).drop ((pre ++ u).length - n) = u.drop (u.length - n) := by
  have he : (pre ++ u).length - n = pre.length + (u.length - n) := by
    rw [List.length_append]; omega
  rw [he, List.drop_append]

/-- Taking the last `n` of `(last n of s) ++ t` equals taking the last `n`
of `s ++ t`: the characters evicted earlier are never part of the final
tail. -/
theorem drop_drop_append (s t : List Char) (n : Nat) :
    ((s.drop (s.length - n) ++ t).drop
      ((s.drop (s.length - n) ++ t).length - n)) =
    (s ++ t).drop ((s ++ t).length - n) := by
  rcases Nat.le_total s.length n with h | h
  · rw [Nat.sub_eq_zero_of_le h, List.drop_zero]
  · have hlen : (s.drop (s.length - n)).length = n := by
      rw [List.length_drop]; omega
    have hsplit : s ++ t = s.take (s.length - n) ++ (s.drop (s.length - n) ++ t) := by
      rw [← List.append_assoc, List.take_append_drop]
    rw [hsplit]
    exact (lastN_append_left (s.take (s.length - n)) (s.drop (s.length - n) ++ t) n
      (by rw [List.length_append, hlen]; omega)).symm

/-- Invariant of the read loop: at every point the buffer equals the last
`BUF_CAP` characters of the stream consumed so far. -/
theorem feedChunks_aux (chunks : List String) (s : List Char) :
    chunks.foldl (fun buf t => dequeExtend buf t.data)
        (s.drop (s.length - BUF_CAP)) =
      (chunks.foldl (fun acc t => acc ++ t.data) s).drop
        ((chunks.foldl (fun acc t => acc ++ t.data) s).length - BUF_CAP) := by
  induction chunks generalizing s with
  | nil => rw [List.foldl_nil, List.foldl_nil]
  | cons c rest ih =>
      simp only [List.foldl_cons]
      rw [dequeExtend_eq, drop_drop_append]
      exact ih (s ++ c.data)

/-- C1 (claim theorem below builds on this): the final buffer is exactly
the last `BUF_CAP` characters of the full decoded stream. -/
theorem feedChunks_eq_lastN (chunks : List String) :
    feedChunks chunks =
      (fullStream chunks).drop ((fullStream chunks).length - BUF_CAP) := by
  have h := feedChunks_aux chunks []
  rw [List.drop_nil] at h
  exact h

/-!
## Pattern language

The script uses exactly two regular expressions (lines 67 and 88):
`Output wheel: (.+)\n` and `Successfully built jax-.+ and (jax-.+\.whl)\n`.
Both are built from literal runs, the greedy `.+` (one or more characters
other than a newline), and one capture group.  `RItem` is this fragment;
`matchItems` is a backtracking matcher with Python `re` semantics
(leftmost match, greedy `.+` trying the longest feasible length first),
and `findall` scans left to right collecting the capture of each
non-overlapping match, as `re.findall` does for a one-group pattern.
-/

inductive RItem where
  | lit (l : List Char)
  | dotPlus
  | gOpen
  | gClose
  deriving DecidableEq, Repr

/-- The list `[m, m-1, ..., 1]`: the candidate lengths for a greedy `.+`. -/
def descLens (m : Nat) : List Nat :=
  (List.range m).map (fun i => m - i)

/-- Prioritised backtracking matcher.  `ing` is true between `gOpen` and
`gClose`; `acc` accumulates the capture.  Returns the unconsumed suffix
and the captured characters of the first (most preferred) full match. -/
def matchItems : List RItem → List Char → Bool → List Char →
    Option (List Char × List Char)
  | [], cs, _, acc => some (cs, acc)
  | .lit l :: items, cs, ing, acc =>
      if l.isPrefixOf cs then
        matchItems items (cs.drop l.length) ing (if ing then acc ++ l else acc)
      else none
  | .gOpen :: items, cs, _, acc => matchItems items cs true acc
  | .gClose :: items, cs, _, acc => matchItems items cs false acc
  | .dotPlus :: items, cs, ing, acc =>
      (descLens ((cs.takeWhile (fun c => c ≠ '\n')).length)).findSome?
        (fun n => matchItems items (cs.drop n) ing
          (if ing then acc ++ cs.take n else acc))

/-- Left-to-right scan collecting captures of non-overlapping matches.
The fuel bounds the number of scan positions; `findall` supplies
`length + 1`, enough to visit every position once. -/
def findallAux (items : List RItem) : Nat → List Char → List (List Char)
  | 0, _ => []
  | Nat.succ fuel, cs =>
      match matchItems items cs false [] with
      | some (rest, cap) =>
          if rest.length < cs.length then cap :: findallAux items fuel rest
          else cap :: findallAux items fuel cs.tail
      | none =>
          match cs with
          | [] => []
          | _ :: cs2 => findallAux items fuel cs2

/-- Models `pattern.findall(text)` for a one-group pattern in the `RItem`
fragment. -/
def findall (items : List RItem) (s : String) : List String :=
  (findallAux items (s.data.length + 1) s.data).map (fun l => String.mk l)

/-- The regex `re.compile("Output wheel: (.+)\n")` (line 67). -/
def jaxlibPattern : List RItem :=
  [.lit "Output wheel: ".data, .gOpen, .dotPlus, .gClose, .lit "\n".data]

/-- The regex `re.compile("Successfully built jax-.+ and (jax-.+\.whl)\n")`
(line 88).  The parentheses around `jax-.+\.whl` form a capture group;
they do not match literal parenthesis characters. -/
def jaxPattern : List RItem :=
  [.lit "Successfully built jax-".data, .dotPlus, .lit " and ".data,
   .gOpen, .lit "jax-".data, .dotPlus, .lit ".whl".data, .gClose,
   .lit "\n".data]

/-- Models `os.path.join` for two components (POSIX, the cases the script can
reach): an absolute second component replaces the first; otherwise the
parts are joined, inserting `/` unless the first part is empty or already
ends in `/`. -/
def joinPath (a b : String) : String :=
  if b.data.headD 'a' = '/' then b
  else if a = "" then b
  else if a.data.getLastD 'a' = '/' then a ++ b
  else a ++ "/" ++ b

/-- The driver `build_jaxlib_wheel` (lines 45-69) after the child ran: it
returns the matches of the runner unchanged, with `capture="stderr"` selecting the error
stream. -/
def build_jaxlib_wheel_run (chunks : List String) (rc : Int) :
    Except RunError (List String) :=
  runScanForOutput (findall jaxlibPattern) chunks rc

/-- The driver `build_jax_wheel` (lines 72-93) after the child ran: the
matches of the runner with `capture="stdout"`, each resolved to
`os.path.join(jax_path, "dist", x)`. -/
def build_jax_wheel_run (jax_path : String) (chunks : List String)
    (rc : Int) : Except RunError (List String) :=
  match runScanForOutput (findall jaxPattern) chunks rc with
  | .error e => .error e
  | .ok wheels => .ok (wheels.map (fun x => joinPath (joinPath jax_path "dist") x))

instance exceptDecEq {ε α : Type} [DecidableEq ε] [DecidableEq α] :
    DecidableEq (Except ε α) := fun x y =>
  match x, y with
  | .ok a, .ok b =>
      if h : a = b then isTrue (by rw [h])
      else isFalse (by intro hh; cases hh; exact h rfl)
  | .error e, .error f =>
      if h : e = f then isTrue (by rw [h])
      else isFalse (by intro hh; cases hh; exact h rfl)
  | .ok _, .error _ => isFalse (by intro hh; cases hh)
  | .error _, .ok _ => isFalse (by intro hh; cases hh)

/-!
## Target configurator, environment overlay, capture selection, main
-/

/-- The filesystem fragment the configurator touches: a map from path to
file content. -/
def FileSys : Type := String → Option String

/-- The path `os.path.join(rocm_path, "bin/target.lst")` (line 36). -/
def targetListPath (rocm_path : String) : String :=
  joinPath rocm_path "bin/target.lst"

/-- The path `os.path.join(rocm_path, ".info/version")` (line 37). -/
def versionFilePath (rocm_path : String) : String :=
  joinPath rocm_path ".info/version"

/-- The configurator `update_rocm_targets` (lines 35-42): overwrite the target list with
`targets` plus a newline, then `open(version_fp, "a").close()`, which
creates the version file empty when missing and leaves its content
unchanged otherwise. -/
def update_rocm_targets (fs : FileSys) (rocm_path targets : String) : FileSys :=
  fun p =>
    if p = targetListPath rocm_path then some (targets ++ "\n")
    else if p = versionFilePath rocm_path then some ((fs p).getD "")
    else fs p

/-- An environment dict. -/
def EnvMap : Type := String → Option String

/-- Dict assignment `env[k] = v`. -/
def setItem (d : EnvMap) (k v : String) : EnvMap :=
  fun p => if p = k then some v else d p

/-- The environment overlay both wheel drivers build (lines 61-64 and
82-85): `env = dict(os.environ)`, `env["JAX_RELEASE"] = str(1)`,
`env["JAXLIB_RELEASE"] = str(1)`,
`env["PATH"] = "%s:%s" % (py_bin, env["PATH"])`.  Reading `env["PATH"]`
raises `KeyError` when the parent environment has no `PATH`. -/
def driverEnv (parent : EnvMap) (py_bin : String) : Except String EnvMap :=
  match setItem (setItem parent "JAX_RELEASE" "1") "JAXLIB_RELEASE" "1" "PATH" with
  | none => .error "KeyError: PATH"
  | some path =>
      .ok (setItem (setItem (setItem parent "JAX_RELEASE" "1")
        "JAXLIB_RELEASE" "1") "PATH" (py_bin ++ ":" ++ path))

/-- One driver launch as a state transformer on the parent environment:
`dict(os.environ)` copies, so the parent mapping after the call is the
mapping before it; the overlay is handed to `subprocess.Popen` only. -/
def driverLaunch (parent : EnvMap) (py_bin : String) :
    Except String EnvMap × EnvMap :=
  (driverEnv parent py_bin, parent)

/-- The helper `to_cpy_ver` (lines 150-152): split on `.`, format the first two
components as `cp<major><minor>`. -/
def to_cpy_ver (python_version : String) : String :=
  let tup := python_version.splitOn "."
  "cp" ++ toString (tup.headD "").toNat! ++ toString (tup.getD 1 "").toNat!

/-- The interpreter bin directory,
`py_bin = "/opt/python/%s-%s/bin" % (cpy, cpy)` (lines 59 and 80). -/
def pyBinFor (python_version : String) : String :=
  let cpy := to_cpy_ver python_version
  "/opt/python/" ++ cpy ++ "-" ++ cpy ++ "/bin"

/-- A standard stream of the child or parent process. -/
inductive StdStream where
  | stdout
  | stderr
  deriving DecidableEq, Repr

/-- How `_run_scan_for_output` wires the streams of the child
(lines 100-107):
which child stream is piped and captured, which parent stream relays it,
and which child stream is left unspecified in `Popen` and therefore
inherited from the parent. -/
structure CaptureConfig where
  pipedStream : StdStream
  relayStream : StdStream
  inheritedStream : StdStream
  deriving DecidableEq, Repr

/-- The branch on `capture` (line 100): only the exact string `"stderr"`
selects the error stream; any other value, `None` included, falls to the
`else` branch piping standard output. -/
def captureConfig (capture : Option String) : CaptureConfig :=
  if capture = some "stderr" then
    { pipedStream := .stderr, relayStream := .stderr, inheritedStream := .stdout }
  else
    { pipedStream := .stdout, relayStream := .stdout, inheritedStream := .stderr }

/-- The value argparse stores for `--python-versions`: either the string
given on the command line or the default, which at line 177 is the Python
list `["3.10.19,3.12"]` (a one-element list, not a string). -/
inductive PyVal where
  | str (s : String)
  | list (l : List String)
  deriving DecidableEq, Repr

/-- The argparse default `default=["3.10.19,3.12"]` (line 177). -/
def defaultPythonVersions : PyVal := .list ["3.10.19,3.12"]

/-- The split `args.python_versions.split(",")` (line 194): `split` is a
`str` method; on a list the attribute lookup raises `AttributeError`. -/
def pySplitComma : PyVal → Except String (List String)
  | .str s => .ok (s.splitOn ",")
  | .list _ => .error "AttributeError: list object has no attribute split"

/-- The externally visible actions of `main` after the split, in
program order (lines 196-221). -/
inductive Step where
  | printBanner
  | configureTargets
  | buildJaxlibFor (v : String)
  | fixWheelsFor (v : String)
  | buildJaxFor (v : String)
  | copyToWheelhouse
  deriving DecidableEq, Repr

/-- Sequencing skeleton of `main` (lines 192-221): the comma split at
line 194 runs before anything else; then the banner prints, targets are
configured once, each version gets a jaxlib build followed by wheel
fixes, the pure jax wheel is built for the last version
(`python_versions[-1]`), and the jax wheels are copied to
`/wheelhouse/`. -/
def mainTrace (pythonVersions : PyVal) : Except String (List Step) :=
  match pySplitComma pythonVersions with
  | .error e => .error e
  | .ok pvs =>
      .ok ([Step.printBanner, Step.configureTargets] ++
        pvs.flatMap (fun v => [Step.buildJaxlibFor v, Step.fixWheelsFor v]) ++
        [Step.buildJaxFor (pvs.getLastD ""), Step.copyToWheelhouse])

/-!
## Claim theorems
-/

/-- C1: after the read loop of `_run_scan_for_output` ends, the capture
buffer holds at most 20000 characters, its length is
`min 20000 total`, and its content is exactly the last
`min 20000 total` characters of the full decoded stream: older
characters have been evicted FIFO. -/
theorem C1_bounded_tail_buffer (chunks : List String) :
    (feedChunks chunks).length ≤ 20000 ∧
    (feedChunks chunks).length = min 20000 (fullStream chunks).length ∧
    feedChunks chunks =
      (fullStream chunks).drop ((fullStream chunks).length - 20000) := by
  have h := feedChunks_eq_lastN chunks
  refine ⟨?_, ?_, ?_⟩
  · show (feedChunks chunks).length ≤ BUF_CAP
    rw [h]
    exact list_drop_sub_length_le _ _
  · show (feedChunks chunks).length = min BUF_CAP (fullStream chunks).length
    rw [h]
    exact list_drop_sub_length_eq _ _
  · exact h

/-- C3: whenever the child exits nonzero, `_run_scan_for_output` raises
the child-process-failed error carrying that exit code, regardless of the
pattern and of the captured output; no match list is returned and
pattern extraction never happens. -/
theorem C3_nonzero_exit_fails (fa : String → List String)
    (chunks : List String) (rc : Int) (h : rc ≠ 0) :
    runScanForOutput fa chunks rc = .error (.childProcessFailed rc) := by
  unfold runScanForOutput
  rw [if_pos h]

/-- Witness for C3: a child that printed a perfectly matching line but
exited with code 3 still fails with `childProcessFailed 3`. -/
theorem C3_nonzero_exit_fails_witness :
    runScanForOutput (findall jaxlibPattern) ["Output wheel: /a.whl\n"] 3 =
      .error (.childProcessFailed 3) :=
  C3_nonzero_exit_fails (findall jaxlibPattern) ["Output wheel: /a.whl\n"] 3
    (by decide)

/-- C4: when the child exits 0 and the pattern finds nothing in the
captured text, `_run_scan_for_output` raises the no-match error carrying
the full captured text (which line 139 logs); it never returns an empty
list. -/
theorem C4_no_match_fails (fa : String → List String) (chunks : List String)
    (h : fa (capturedText chunks) = []) :
    runScanForOutput fa chunks 0 =
      .error (.noMatchFound (capturedText chunks)) := by
  unfold runScanForOutput
  rw [if_neg (fun hh => hh rfl), h]
  rfl

/-- Witness for C4: output with no matching line and exit code 0. -/
theorem C4_no_match_fails_witness :
    findall jaxlibPattern (capturedText ["building things...\n"]) = [] ∧
    runScanForOutput (findall jaxlibPattern) ["building things...\n"] 0 =
      .error (.noMatchFound (capturedText ["building things...\n"])) :=
  ⟨by decide, C4_no_match_fails (findall jaxlibPattern) ["building things...\n"]
    (by decide)⟩

/-- C5: when the child exits 0 and the pattern finds `k ≥ 1` matches in
the captured text, `_run_scan_for_output` returns exactly that match
list — the `k` captured strings in their order of appearance, as
delivered by `findall`. -/
theorem C5_matches_in_order (fa : String → List String)
    (chunks : List String) (h : fa (capturedText chunks) ≠ []) :
    runScanForOutput fa chunks 0 = .ok (fa (capturedText chunks)) := by
  unfold runScanForOutput
  rw [if_neg (fun hh => hh rfl)]
  have hne : (fa (capturedText chunks)).isEmpty = false := by
    cases hfa : fa (capturedText chunks) with
    | nil => exact absurd hfa h
    | cons a l => rfl
  rw [hne]
  rfl

/-- Witness for C5: two `Output wheel:` lines give exactly their two
captures, in order of appearance. -/
theorem C5_matches_in_order_witness :
    findall jaxlibPattern
      (capturedText ["Output wheel: /a.whl\nOutput wheel: /b.whl\n"]) ≠ [] ∧
    runScanForOutput (findall jaxlibPattern)
      ["Output wheel: /a.whl\nOutput wheel: /b.whl\n"] 0 =
      .ok ["/a.whl", "/b.whl"] := by
  refine ⟨by decide, ?_⟩
  rw [C5_matches_in_order (findall jaxlibPattern)
    ["Output wheel: /a.whl\nOutput wheel: /b.whl\n"] (by decide)]
  decide

/-- C6: a native build child writing exactly
`Output wheel: /tmp/out/pkg-1.0-cp310.whl\n` to its error stream and
exiting 0 makes `build_jaxlib_wheel` return
`["/tmp/out/pkg-1.0-cp310.whl"]`. -/
theorem C6_jaxlib_end_to_end :
    build_jaxlib_wheel_run ["Output wheel: /tmp/out/pkg-1.0-cp310.whl\n"] 0 =
      .ok ["/tmp/out/pkg-1.0-cp310.whl"] := by
  decide

/-- C2 counterexample: with the packaging child writing exactly
`Successfully built jax-1.0 and (jax-1.0-py3-none-any.whl)\n` (literal
parentheses) and exiting 0, `build_jax_wheel` does NOT return
`[<jax_path>/dist/jax-1.0-py3-none-any.whl]`: the parentheses in the
regex at line 88 delimit the capture group, so nothing matches the
literal-parenthesis text and the no-match exception is raised. -/
theorem C2_counterexample :
    build_jax_wheel_run "/jax"
      ["Successfully built jax-1.0 and (jax-1.0-py3-none-any.whl)\n"] 0 ≠
      .ok ["/jax/dist/jax-1.0-py3-none-any.whl"] := by
  decide

/-- C2 amended: if the packaging child writes exactly
`Successfully built jax-1.0 and jax-1.0-py3-none-any.whl\n` (no literal
parentheses — the parentheses of the regex are a capture group) to standard
output and exits 0, `build_jax_wheel` returns the one-element list
`[os.path.join(jax_path, "dist", "jax-1.0-py3-none-any.whl")]`. -/
theorem C2_jax_end_to_end (jax_path : String) :
    build_jax_wheel_run jax_path
      ["Successfully built jax-1.0 and jax-1.0-py3-none-any.whl\n"] 0 =
      .ok [joinPath (joinPath jax_path "dist") "jax-1.0-py3-none-any.whl"] := by
  rfl

/-- The target-list path is always strictly longer than the version-file
path: `bin/target.lst` has one character more than `.info/version` and
the join treats both the same way. -/
theorem target_version_length (p : String) :
    (targetListPath p).length = (versionFilePath p).length + 1 := by
  have h14 : "bin/target.lst".length = 14 := rfl
  have h13 : ".info/version".length = 13 := rfl
  have hs : "/".length = 1 := rfl
  unfold targetListPath versionFilePath joinPath
  rw [if_neg (by decide : ¬("bin/target.lst".data.headD 'a' = '/')),
    if_neg (by decide : ¬(".info/version".data.headD 'a' = '/'))]
  by_cases h0 : p = ""
  · rw [if_pos h0, if_pos h0, h14, h13]
  · rw [if_neg h0, if_neg h0]
    by_cases h1 : p.data.getLastD 'a' = '/'
    · rw [if_pos h1, if_pos h1, String.length_append, String.length_append,
        h14, h13]
    · rw [if_neg h1, if_neg h1, String.length_append, String.length_append,
        String.length_append, String.length_append, h14, h13, hs]

/-- The two files the configurator touches are distinct. -/
theorem target_ne_version (p : String) :
    targetListPath p ≠ versionFilePath p := by
  intro h
  have hl := congrArg String.length h
  rw [target_version_length] at hl
  omega

/-- C7: `update_rocm_targets` is idempotent.  For every filesystem state,
toolkit path and targets string: a second identical call leaves every
file exactly as the first call did; after one call (hence after both) the
target list holds the targets string followed by one newline; the version
marker exists after each call, its content is the prior content when the
file existed (and empty when it had to be created), and the second call
leaves it untouched. -/
theorem C7_update_rocm_targets_idempotent (fs : FileSys)
    (rocm_path targets : String) :
    (update_rocm_targets (update_rocm_targets fs rocm_path targets)
        rocm_path targets =
      update_rocm_targets fs rocm_path targets) ∧
    (update_rocm_targets fs rocm_path targets (targetListPath rocm_path) =
      some (targets ++ "\n")) ∧
    (update_rocm_targets fs rocm_path targets (versionFilePath rocm_path) =
      some ((fs (versionFilePath rocm_path)).getD "")) := by
  have hvt : ¬(versionFilePath rocm_path = targetListPath rocm_path) :=
    fun h => target_ne_version rocm_path h.symm
  refine ⟨?_, ?_, ?_⟩
  · funext p
    unfold update_rocm_targets
    by_cases hT : p = targetListPath rocm_path
    · simp only [if_pos hT]
    · simp only [if_neg hT]
      by_cases hV : p = versionFilePath rocm_path
      · simp only [if_pos hV]
        rfl
      · simp only [if_neg hV]
  · unfold update_rocm_targets
    rw [if_pos rfl]
  · unfold update_rocm_targets
    rw [if_neg hvt, if_pos rfl]

/-- C8: for a launch by either wheel build driver, the environment overlay
is the copy of the parent environment with `JAX_RELEASE=1`,
`JAXLIB_RELEASE=1` and the interpreter-specific bin directory prepended
to `PATH`, it agrees with the parent on every other variable, and the
environment mapping owned by the parent process is unchanged after the
call. -/
theorem C8_env_overlay_fresh (parent : EnvMap) (py_bin path : String)
    (h : parent "PATH" = some path) :
    (driverLaunch parent py_bin).2 = parent ∧
    ∃ ov, (driverLaunch parent py_bin).1 = .ok ov ∧
      ov "JAX_RELEASE" = some "1" ∧
      ov "JAXLIB_RELEASE" = some "1" ∧
      ov "PATH" = some (py_bin ++ ":" ++ path) ∧
      ∀ k, k ≠ "JAX_RELEASE" → k ≠ "JAXLIB_RELEASE" → k ≠ "PATH" →
        ov k = parent k := by
  have he0 : setItem (setItem parent "JAX_RELEASE" "1") "JAXLIB_RELEASE" "1"
      "PATH" = some path := by
    unfold setItem
    rw [if_neg (by decide : ¬("PATH" = "JAXLIB_RELEASE")),
      if_neg (by decide : ¬("PATH" = "JAX_RELEASE"))]
    exact h
  refine ⟨rfl, ?_⟩
  refine ⟨setItem (setItem (setItem parent "JAX_RELEASE" "1")
    "JAXLIB_RELEASE" "1") "PATH" (py_bin ++ ":" ++ path), ?_, ?_, ?_, ?_, ?_⟩
  · show driverEnv parent py_bin = _
    unfold driverEnv
    rw [he0]
  · unfold setItem
    rw [if_neg (by decide : ¬("JAX_RELEASE" = "PATH")),
      if_neg (by decide : ¬("JAX_RELEASE" = "JAXLIB_RELEASE")),
      if_pos rfl]
  · unfold setItem
    rw [if_neg (by decide : ¬("JAXLIB_RELEASE" = "PATH")), if_pos rfl]
  · unfold setItem
    rw [if_pos rfl]
  · intro k h1 h2 h3
    unfold setItem
    rw [if_neg h3, if_neg h2, if_neg h1]

/-- Witness for C8: a concrete parent environment holding only `PATH`. -/
theorem C8_env_overlay_fresh_witness :
    (fun k => if k = "PATH" then some "/usr/bin" else none) "PATH" =
      some "/usr/bin" ∧
    ((driverLaunch (fun k => if k = "PATH" then some "/usr/bin" else none)
        (pyBinFor "3.10")).2 =
      (fun k => if k = "PATH" then some "/usr/bin" else none) ∧
    ∃ ov, (driverLaunch (fun k => if k = "PATH" then some "/usr/bin" else none)
        (pyBinFor "3.10")).1 = .ok ov ∧
      ov "JAX_RELEASE" = some "1" ∧
      ov "JAXLIB_RELEASE" = some "1" ∧
      ov "PATH" = some (pyBinFor "3.10" ++ ":" ++ "/usr/bin") ∧
      ∀ k, k ≠ "JAX_RELEASE" → k ≠ "JAXLIB_RELEASE" → k ≠ "PATH" →
        ov k = (fun k => if k = "PATH" then some "/usr/bin" else none) k) :=
  ⟨rfl, C8_env_overlay_fresh (fun k => if k = "PATH" then some "/usr/bin" else none)
    (pyBinFor "3.10") "/usr/bin" rfl⟩

/-- C9: the argparse default for `--python-versions` is the one-element
Python list `["3.10.19,3.12"]`, not a string, so when the flag is absent
`main` fails at the comma split of line 194 with an `AttributeError` —
before printing, before configuring targets and before any build step. -/
theorem C9_default_python_versions_breaks_main :
    defaultPythonVersions = PyVal.list ["3.10.19,3.12"] ∧
    mainTrace defaultPythonVersions =
      .error "AttributeError: list object has no attribute split" :=
  ⟨rfl, rfl⟩

/-- C10: the branch on `capture` pipes and relays the standard
output for every value other than the exact string `"stderr"` (so also
for `None` and `"stdout"`), pipes and relays the error stream exactly
for `"stderr"`, and in both cases leaves the other stream unspecified in
`Popen`, hence inherited from the parent. -/
theorem C10_capture_selection (capture : Option String)
    (h : capture ≠ some "stderr") :
    captureConfig capture =
      { pipedStream := .stdout, relayStream := .stdout,
        inheritedStream := .stderr } ∧
    captureConfig (some "stderr") =
      { pipedStream := .stderr, relayStream := .stderr,
        inheritedStream := .stdout } := by
  constructor
  · unfold captureConfig
    rw [if_neg h]
  · rfl

/-- Witness for C10: `capture="stdout"` still selects standard output. -/
theorem C10_capture_selection_witness :
    captureConfig (some "stdout") =
      { pipedStream := .stdout, relayStream := .stdout,
        inheritedStream := .stderr } ∧
    captureConfig (some "stderr") =
      { pipedStream := .stderr, relayStream := .stderr,
        inheritedStream := .stdout } :=
  C10_capture_selection (some "stdout") (by decide)
